import Mathlib

/-
Verification of the sublock library: a coarse reader-writer lock (or
single-threaded cell) protecting a value that contains independently
borrowable sub-cells.  Three modules are embedded:

  * Prooflock  — src/sync/prooflock.rs  (capability tokens over an RwLock)
  * Proofcell  — src/cell/proofcell.rs  (capability tokens over a RefCell)
  * Atomlock   — src/sync/atomlock.rs   (shared atomic liveness record)

Rust panics (assert! / assert_eq!) are embedded as the `fatal` constructor of
`AssertResult`; `std::sync::LockResult` and `TryLockResult` are embedded as
inductives whose poisoned variants carry the guard, exactly as the Rust types
do.  Blocking acquisition is embedded as `Option`: `none` means the call does
not return in the current state.
-/

namespace Sublock

/-- Outcome of an operation that can hit a Rust fatal assertion
(`assert!` / `assert_eq!`).  There is no recoverable-error constructor:
these operations either return a reference or panic. -/
inductive AssertResult (α : Type) where
  | ok (value : α)
  | fatal (msg : String)

/-- True exactly on the `fatal` outcome. -/
def AssertResult.isFatal {α : Type} : AssertResult α → Bool
  | .fatal _ => true
  | .ok _ => false

/-- Embeds `std::sync::LockResult<G> = Result<G, PoisonError<G>>`:
both the success and the poisoned outcome carry the guard `G`. -/
inductive LockResult (α : Type) where
  | ok (guard : α)
  | poisoned (guard : α)

/-- Embeds `std::sync::TryLockResult<G>`: success, poisoned (carrying the
guard) or a bare would-block outcome. -/
inductive TryLockResult (α : Type) where
  | ok (guard : α)
  | poisoned (guard : α)
  | wouldBlock

/-- State of a `std::sync::RwLock`: how many read guards are outstanding,
whether a write guard is outstanding, and whether a writer panicked while
holding the lock (poison flag). -/
structure RwLockState where
  readers : Nat
  writer : Bool
  poisoned : Bool

end Sublock

namespace Prooflock

open Sublock

/-- Embeds `Proof<'a>(usize, PhantomData<&'a()>)` from src/sync/prooflock.rs:
a proof that the MainLock is currently opened.  The lifetime marker is a
compile-time artefact; the runtime content is the key (field `.0`). -/
structure Proof where
  key : Nat

/-- Embeds `ProofMut<'a>(usize, PhantomData<&'a()>)`: a proof that the
MainLock is currently opened mutably. -/
structure ProofMut where
  key : Nat

/-- Embeds `SubCell<T> { cell: UnsafeCell<T>, owner_key: usize }` from
src/sync/prooflock.rs.  The struct stores only the payload and the owner
key; it has no borrow-tracking state of any kind. -/
structure SubCell (T : Type) where
  cell : T
  owner_key : Nat

/-- Embeds `SubCell::new(proof: &ProofMut, value: T)`: stores the value and
records the key carried by the write capability. -/
def SubCell.new {T : Type} (proof : ProofMut) (value : T) : SubCell T :=
  { cell := value, owner_key := proof.key }

/-- Embeds `ProofBorrow<Proof<'b>, T>::borrow` for `SubCell<T>`:
`assert_eq!(self.owner_key, proof.0)` then return a shared reference to the
payload. -/
def SubCell.borrow {T : Type} (self : SubCell T) (proof : Proof) : AssertResult T :=
  if self.owner_key = proof.key then .ok self.cell
  else .fatal "assertion failed: self.owner_key == proof.0"

/-- Embeds `ProofBorrow<ProofMut<'b>, T>::borrow` for `SubCell<T>` (reading
through a write capability): same key assertion, returns a shared
reference. -/
def SubCell.borrowWithMut {T : Type} (self : SubCell T) (proof : ProofMut) : AssertResult T :=
  if self.owner_key = proof.key then .ok self.cell
  else .fatal "assertion failed: self.owner_key == proof.0"

/-- Embeds `ProofBorrowMut<ProofMut<'b>, T>::borrow_mut` for `SubCell<T>`:
key assertion, then an exclusive reference to the payload.  The returned
Rust `&mut T` is modelled by its two capabilities: the current payload and
the write-back function producing the updated cell. -/
def SubCell.borrow_mut {T : Type} (self : SubCell T) (proof : ProofMut) :
    AssertResult (T × (T → SubCell T)) :=
  if self.owner_key = proof.key then
    .ok (self.cell, fun v => { self with cell := v })
  else .fatal "assertion failed: self.owner_key == proof.0"

/-- Embeds `MainLock<T> { lock: RwLock<T>, ownership: usize }`.  The
underlying `RwLock` is split into its synchronisation state and the
protected value. -/
structure MainLock (T : Type) where
  lock : RwLockState
  value : T
  ownership : Nat

/-- Embeds `MainLock::new(value)`.  The source computes
`ownership = mem::transmute(&value as *const T)`: the address of the
by-value parameter `value` in `new`'s own stack frame, read before the
value is moved into the `RwLock`.  That address is supplied by the runtime
environment, so the embedding takes it as the explicit argument
`valueAddr`.  Nothing in the source constrains two calls to receive
distinct addresses: the parameter slot is deallocated when `new` returns,
before the resulting `MainLock` is ever used, so a later call may reuse
the same slot while the first lock is still alive. -/
def MainLock.new {T : Type} (valueAddr : Nat) (value : T) : MainLock T :=
  { lock := { readers := 0, writer := false, poisoned := false },
    value := value,
    ownership := valueAddr }

/-- Embeds `MainLock::read`: mints the `Proof` from `self.ownership`, then
delegates to `RwLock::read`, which blocks while a write guard is
outstanding (modelled as `none`).  Both the `Ok` and the `Poisoned` branch
carry the same `(proof, guard)` pair; the read guard is modelled by the
value it dereferences to. -/
def MainLock.read {T : Type} (self : MainLock T) :
    Option (LockResult (Proof × T) × MainLock T) :=
  if self.lock.writer then none
  else
    let proof : Proof := { key := self.ownership }
    let next := { self with lock := { self.lock with readers := self.lock.readers + 1 } }
    if self.lock.poisoned then some (.poisoned (proof, self.value), next)
    else some (.ok (proof, self.value), next)

/-- Embeds `MainLock::try_read`: as `read`, but a held write guard yields
`WouldBlock` with no side effect instead of blocking. -/
def MainLock.try_read {T : Type} (self : MainLock T) :
    TryLockResult (Proof × T) × MainLock T :=
  if self.lock.writer then (.wouldBlock, self)
  else
    let proof : Proof := { key := self.ownership }
    let next := { self with lock := { self.lock with readers := self.lock.readers + 1 } }
    if self.lock.poisoned then (.poisoned (proof, self.value), next)
    else (.ok (proof, self.value), next)

/-- Embeds `MainLock::write`: mints the `ProofMut`, then delegates to
`RwLock::write`, which blocks while any guard is outstanding.  Both the
`Ok` and the `Poisoned` branch carry the same `(proof, guard)` pair. -/
def MainLock.write {T : Type} (self : MainLock T) :
    Option (LockResult (ProofMut × T) × MainLock T) :=
  if self.lock.writer || self.lock.readers != 0 then none
  else
    let proof : ProofMut := { key := self.ownership }
    let next := { self with lock := { self.lock with writer := true } }
    if self.lock.poisoned then some (.poisoned (proof, self.value), next)
    else some (.ok (proof, self.value), next)

/-- Embeds `MainLock::try_write`: as `write`, but contention yields
`WouldBlock` with no side effect instead of blocking. -/
def MainLock.try_write {T : Type} (self : MainLock T) :
    TryLockResult (ProofMut × T) × MainLock T :=
  if self.lock.writer || self.lock.readers != 0 then (.wouldBlock, self)
  else
    let proof : ProofMut := { key := self.ownership }
    let next := { self with lock := { self.lock with writer := true } }
    if self.lock.poisoned then (.poisoned (proof, self.value), next)
    else (.ok (proof, self.value), next)

/-- Models writing the protected value through a held write guard
(`*guard = ...` or a method call through `DerefMut`).  Only invoked in
states where a write guard is outstanding. -/
def MainLock.setValue {T : Type} (self : MainLock T) (v : T) : MainLock T :=
  { self with value := v }

/-- Models dropping a read guard (`RwLockReadGuard::drop`): the reader
count decreases, nothing else changes. -/
def MainLock.readRelease {T : Type} (self : MainLock T) : MainLock T :=
  { self with lock := { self.lock with readers := self.lock.readers - 1 } }

/-- Models dropping the write guard (`RwLockWriteGuard::drop`). -/
def MainLock.writeRelease {T : Type} (self : MainLock T) : MainLock T :=
  { self with lock := { self.lock with writer := false } }

/-- Models a writer panicking while holding the write guard: the guard is
dropped during unwinding and the `RwLock` records the poison flag. -/
def MainLock.poisonRelease {T : Type} (self : MainLock T) : MainLock T :=
  { self with lock := { self.lock with writer := false, poisoned := true } }

end Prooflock

namespace Proofcell

open Sublock

/-- Embeds `Proof<'a>` from src/cell/proofcell.rs: a proof that the
MainCell is currently opened. -/
structure Proof where
  key : Nat

/-- Embeds `ProofMut<'a>` from src/cell/proofcell.rs: a proof that the
MainCell is currently opened mutably. -/
structure ProofMut where
  key : Nat

/-- Embeds `SubCell<T> { cell: UnsafeCell<T>, owner_key: usize }` from
src/cell/proofcell.rs: payload plus owner key, no borrow-tracking
state. -/
structure SubCell (T : Type) where
  cell : T
  owner_key : Nat

/-- Embeds `SubCell::new(proof: &ProofMut, value: T)` from
src/cell/proofcell.rs. -/
def SubCell.new {T : Type} (proof : ProofMut) (value : T) : SubCell T :=
  { cell := value, owner_key := proof.key }

/-- Embeds `ProofBorrow<Proof<'b>, T>::borrow` for the proofcell
`SubCell<T>`. -/
def SubCell.borrow {T : Type} (self : SubCell T) (proof : Proof) : AssertResult T :=
  if self.owner_key = proof.key then .ok self.cell
  else .fatal "assertion failed: self.owner_key == proof.0"

/-- Embeds `ProofBorrow<ProofMut<'b>, T>::borrow` for the proofcell
`SubCell<T>` (reading through a write capability). -/
def SubCell.borrowWithMut {T : Type} (self : SubCell T) (proof : ProofMut) : AssertResult T :=
  if self.owner_key = proof.key then .ok self.cell
  else .fatal "assertion failed: self.owner_key == proof.0"

/-- Embeds `ProofBorrowMut<ProofMut<'b>, T>::borrow_mut` for the proofcell
`SubCell<T>`; the `&mut T` is modelled as payload plus write-back. -/
def SubCell.borrow_mut {T : Type} (self : SubCell T) (proof : ProofMut) :
    AssertResult (T × (T → SubCell T)) :=
  if self.owner_key = proof.key then
    .ok (self.cell, fun v => { self with cell := v })
  else .fatal "assertion failed: self.owner_key == proof.0"

/-- Borrow state of a `std::cell::RefCell`: free, shared-borrowed by `n + 1`
readers, or exclusively borrowed. -/
inductive BorrowState where
  | free
  | reading (n : Nat)
  | writing

/-- Embeds `std::cell::BorrowError`: returned by `try_borrow` when the cell
is currently mutably borrowed. -/
inductive BorrowError where
  | alreadyMutablyBorrowed

/-- Embeds `std::cell::BorrowMutError`: returned by `try_borrow_mut` when
the cell is currently borrowed in any way. -/
inductive BorrowMutError where
  | alreadyBorrowed

/-- Embeds `MainCell<T> { cell: RefCell<T>, ownership: usize }`.  The
`RefCell` is split into its borrow state and the protected value. -/
structure MainCell (T : Type) where
  state : BorrowState
  value : T
  ownership : Nat

/-- Embeds `MainCell::new(value)`.  Like `Prooflock.MainLock.new`, the
source transmutes the address of the by-value parameter `value` before
moving it into the `RefCell`; the embedding takes that
environment-supplied address as the explicit argument `valueAddr`. -/
def MainCell.new {T : Type} (valueAddr : Nat) (value : T) : MainCell T :=
  { state := .free, value := value, ownership := valueAddr }

/-- Embeds `MainCell::try_borrow`: mints the `Proof`, then delegates to
`RefCell::try_borrow`, which fails exactly when the cell is currently
mutably borrowed; on failure the error is returned unchanged and nothing
else happens. -/
def MainCell.try_borrow {T : Type} (self : MainCell T) :
    Except BorrowError (Proof × T) × MainCell T :=
  let proof : Proof := { key := self.ownership }
  match self.state with
  | .writing => (.error .alreadyMutablyBorrowed, self)
  | .free => (.ok (proof, self.value), { self with state := .reading 0 })
  | .reading n => (.ok (proof, self.value), { self with state := .reading (n + 1) })

/-- Embeds `MainCell::try_borrow_mut`: mints the `ProofMut`, then delegates
to `RefCell::try_borrow_mut`, which fails exactly when any borrow is
outstanding. -/
def MainCell.try_borrow_mut {T : Type} (self : MainCell T) :
    Except BorrowMutError (ProofMut × T) × MainCell T :=
  let proof : ProofMut := { key := self.ownership }
  match self.state with
  | .free => (.ok (proof, self.value), { self with state := .writing })
  | .reading _ => (.error .alreadyBorrowed, self)
  | .writing => (.error .alreadyBorrowed, self)

end Proofcell

namespace Atomlock

open Sublock

/-- Embeds `Liveness { is_alive: AtomicBool, is_mut: AtomicBool }` from
src/sync/atomlock.rs.  The record is shared (held in an `Arc` by the
`MainLock` and by every `SubCell`); the embedding keeps the single shared
record in the lock state and passes its current value to sub-cell
operations explicitly. -/
structure Liveness where
  is_alive : Bool
  is_mut : Bool

/-- Embeds `SubCell<T> { cell: UnsafeCell<T>, liveness: Arc<Liveness> }`.
The `Arc` field aliases the lock's shared record, so only the payload is
stored here; the shared record is an explicit argument of the borrow
operations. -/
structure SubCell (T : Type) where
  cell : T

/-- Embeds `SubCell::new(liveness: &Arc<Liveness>, value: T)`: stores the
value and clones the `Arc`.  Note what is absent from the source: no
assertion on `liveness.is_mut` or `liveness.is_alive`, and no requirement
that any guard be held — any holder of the shared record (obtainable from
`MainLock::liveness()` without acquiring the lock) can construct a
sub-cell. -/
def SubCell.new {T : Type} (liveness : Liveness) (value : T) : SubCell T :=
  { cell := value }

/-- Embeds `SubCell::borrow`: asserts `liveness.is_alive`, then returns a
shared reference to the payload.  `liveness` is the current value of the
shared record. -/
def SubCell.borrow {T : Type} (liveness : Liveness) (self : SubCell T) : AssertResult T :=
  if liveness.is_alive then .ok self.cell
  else .fatal "Attempting to borrow after the MainLock was released"

/-- Embeds `SubCell::borrow_mut`: asserts `liveness.is_alive`, then
`liveness.is_mut`, then returns an exclusive reference (payload plus
write-back). -/
def SubCell.borrow_mut {T : Type} (liveness : Liveness) (self : SubCell T) :
    AssertResult (T × (T → SubCell T)) :=
  if !liveness.is_alive then
    .fatal "Attempting to borrow_mut after the MainLock was released."
  else if !liveness.is_mut then
    .fatal "Attempting to borrow_mut but the MainLock was acquired immutably."
  else .ok (self.cell, fun v => { cell := v })

/-- Complete state of one `MainLock` from src/sync/atomlock.rs: the shared
`Liveness` record, the underlying `RwLock` occupancy and poison flag, and
whether the `MainLock` itself has been dropped. -/
structure MainLockState where
  liveness : Liveness
  readers : Nat
  writer : Bool
  poisoned : Bool
  dropped : Bool

/-- Embeds `MainLock::new`: the liveness record starts
`{ is_alive: true, is_mut: false }`, the `RwLock` starts free and
unpoisoned. -/
def MainLockState.init : MainLockState :=
  { liveness := { is_alive := true, is_mut := false },
    readers := 0, writer := false, poisoned := false, dropped := false }

/-- Embeds `MainLock::read` (src/sync/atomlock.rs): a plain delegation to
`RwLock::read`.  Blocks while a write guard is outstanding; the liveness
record is not touched, and the poisoned outcome carries the guard exactly
as the success does. -/
def MainLockState.read (s : MainLockState) : Option (LockResult Unit × MainLockState) :=
  if s.writer then none
  else
    let next := { s with readers := s.readers + 1 }
    if s.poisoned then some (.poisoned (), next) else some (.ok (), next)

/-- Embeds `MainLock::try_read`: as `read`, with a side-effect-free
`WouldBlock` outcome instead of blocking. -/
def MainLockState.try_read (s : MainLockState) : TryLockResult Unit × MainLockState :=
  if s.writer then (.wouldBlock, s)
  else
    let next := { s with readers := s.readers + 1 }
    if s.poisoned then (.poisoned (), next) else (.ok (), next)

/-- Embeds `MainLock::write`: blocks while any guard is outstanding; on
acquisition, both the `Ok` and the `Poisoned` branch call
`WriteGuard::new`, which stores `is_mut = true` in the shared record. -/
def MainLockState.write (s : MainLockState) : Option (LockResult Unit × MainLockState) :=
  if s.writer || s.readers != 0 then none
  else
    let next := { s with writer := true, liveness := { s.liveness with is_mut := true } }
    if s.poisoned then some (.poisoned (), next) else some (.ok (), next)

/-- Embeds `MainLock::try_write`: the `WouldBlock` branch returns without
constructing a `WriteGuard` (no liveness change); the `Ok` and `Poisoned`
branches both call `WriteGuard::new`. -/
def MainLockState.try_write (s : MainLockState) : TryLockResult Unit × MainLockState :=
  if s.writer || s.readers != 0 then (.wouldBlock, s)
  else
    let next := { s with writer := true, liveness := { s.liveness with is_mut := true } }
    if s.poisoned then (.poisoned (), next) else (.ok (), next)

/-- Labels for the lifecycle events of a `MainLock` and its guards. -/
inductive Label where
  | readAcquire
  | readRelease
  | writeAcquire
  | writeRelease
  | poisonRelease
  | mainDrop

/-- One lifecycle event of the atomlock state machine, as implemented by
src/sync/atomlock.rs:

* `readAcquire` — `MainLock::read` / successful `try_read` returns: a plain
  `RwLockReadGuard` is produced, no flag is touched;
* `readRelease` — a read guard is dropped;
* `writeAcquire` — `MainLock::write` / successful `try_write` returns (in
  the `Ok` or the `Poisoned` branch): `WriteGuard::new` stores
  `is_mut = true`;
* `writeRelease` — `WriteGuard::drop` stores `is_mut = false`;
* `poisonRelease` — a writer panics: the guard's `drop` runs during
  unwinding (`is_mut = false`) and the `RwLock` becomes poisoned;
* `mainDrop` — `MainLock::drop` stores `is_alive = false` and
  `is_mut = false`; Rust ownership permits it only with no guard
  outstanding, and only once. -/
inductive Step : MainLockState → Label → MainLockState → Prop where
  | readAcquire (s : MainLockState) (h1 : s.dropped = false) (h2 : s.writer = false) :
      Step s .readAcquire { s with readers := s.readers + 1 }
  | readRelease (s : MainLockState) (n : Nat) (h : s.readers = n + 1) :
      Step s .readRelease { s with readers := n }
  | writeAcquire (s : MainLockState) (h1 : s.dropped = false) (h2 : s.writer = false)
      (h3 : s.readers = 0) :
      Step s .writeAcquire
        { s with writer := true, liveness := { s.liveness with is_mut := true } }
  | writeRelease (s : MainLockState) (h : s.writer = true) :
      Step s .writeRelease
        { s with writer := false, liveness := { s.liveness with is_mut := false } }
  | poisonRelease (s : MainLockState) (h : s.writer = true) :
      Step s .poisonRelease
        { s with writer := false, poisoned := true,
                 liveness := { s.liveness with is_mut := false } }
  | mainDrop (s : MainLockState) (h1 : s.dropped = false) (h2 : s.writer = false)
      (h3 : s.readers = 0) :
      Step s .mainDrop
        { s with dropped := true, liveness := { is_alive := false, is_mut := false } }

/-- The states a `MainLock` and its guards can actually be in: everything
reachable from `MainLockState.init` by lifecycle events. -/
inductive Reachable : MainLockState → Prop where
  | init : Reachable MainLockState.init
  | step {s : MainLockState} {l : Label} {s' : MainLockState} :
      Reachable s → Step s l s' → Reachable s'

/-- Invariant tying the shared liveness record to the actual lifecycle
state: `is_alive` mirrors "not yet dropped", `is_mut` mirrors "a write
guard is outstanding", and a dropped lock has no write guard. -/
def Inv (s : MainLockState) : Prop :=
  s.liveness.is_alive = !s.dropped ∧
  s.liveness.is_mut = s.writer ∧
  (s.dropped = true → s.writer = false)

theorem step_inv {s : MainLockState} {l : Label} {s' : MainLockState}
    (hs : Inv s) (h : Step s l s') : Inv s' := by
  obtain ⟨h1, h2, h3⟩ := hs
  cases h with
  | readAcquire ha hb => exact ⟨h1, h2, h3⟩
  | readRelease n ha => exact ⟨h1, h2, h3⟩
  | writeAcquire ha hb hc =>
      refine ⟨h1, rfl, ?_⟩
      intro hd
      simp only [MainLockState.dropped] at hd
      rw [hd] at ha
      cases ha
  | writeRelease ha => exact ⟨h1, rfl, fun _ => rfl⟩
  | poisonRelease ha => exact ⟨h1, rfl, fun _ => rfl⟩
  | mainDrop ha hb hc => exact ⟨rfl, by simpa [h2] using hb, fun _ => hb⟩

theorem reachable_inv {s : MainLockState} (h : Reachable s) : Inv s := by
  induction h with
  | init => exact ⟨rfl, rfl, fun h => by cases h⟩
  | step _ hstep ih => exact step_inv ih hstep

end Atomlock

open Sublock

/-- C1 (counterexample): the claim "SubCell::borrow returns successfully
only while some read or write guard of that MainLock is outstanding" is
false.  The initial state of a freshly constructed MainLock is reachable,
has no read guard and no write guard outstanding, and yet `SubCell::borrow`
succeeds there, because the source only checks `is_alive`, which is true
from construction until drop. -/
theorem C1_borrow_without_guard_counterexample :
    Atomlock.Reachable Atomlock.MainLockState.init ∧
    Atomlock.MainLockState.init.readers = 0 ∧
    Atomlock.MainLockState.init.writer = false ∧
    Atomlock.SubCell.borrow Atomlock.MainLockState.init.liveness
      (⟨42⟩ : Atomlock.SubCell Nat) = .ok 42 :=
  ⟨Atomlock.Reachable.init, rfl, rfl, rfl⟩

/-- C1 (amended): in every reachable state of a MainLock and its sub-cells,
`SubCell::borrow` succeeds if and only if the MainLock has not been dropped
(whether or not any guard is outstanding), and `SubCell::borrow_mut`
succeeds if and only if a write guard is currently outstanding. -/
theorem C1_subcell_access_amended (s : Atomlock.MainLockState)
    (h : Atomlock.Reachable s) (c : Atomlock.SubCell Nat) :
    ((Atomlock.SubCell.borrow s.liveness c).isFatal = false ↔ s.dropped = false) ∧
    ((Atomlock.SubCell.borrow_mut s.liveness c).isFatal = false ↔ s.writer = true) := by
  obtain ⟨h1, h2, h3⟩ := Atomlock.reachable_inv h
  obtain ⟨⟨a, m⟩, rd, w, p, d⟩ := s
  simp only at h1 h2 h3
  subst h1
  subst h2
  cases d <;> cases m <;>
    simp [Atomlock.SubCell.borrow, Atomlock.SubCell.borrow_mut,
      Sublock.AssertResult.isFatal] <;>
    simp at h3

/-- C1 witness: the amended theorem evaluated at the initial state. -/
theorem C1_subcell_access_amended_witness :
    ((Atomlock.SubCell.borrow Atomlock.MainLockState.init.liveness
        (⟨5⟩ : Atomlock.SubCell Nat)).isFatal = false ↔
      Atomlock.MainLockState.init.dropped = false) ∧
    ((Atomlock.SubCell.borrow_mut Atomlock.MainLockState.init.liveness
        (⟨5⟩ : Atomlock.SubCell Nat)).isFatal = false ↔
      Atomlock.MainLockState.init.writer = true) :=
  C1_subcell_access_amended Atomlock.MainLockState.init Atomlock.Reachable.init ⟨5⟩

/-- C2: the constructors of `Prooflock.MainLock` and `Proofcell.MainCell`
derive the identity key from the address of the by-value parameter `value`
— a temporary of `new`'s own stack frame, deallocated before the new
instance is ever used — so two constructions whose parameter slots land at
the same address (as consecutive calls from one frame do) mint equal keys
for two simultaneously-alive instances.  Evaluating the constructors at
such a reused address (here 4096) exhibits the collision the claim
excludes. -/
theorem C2_key_collision_at_reused_address :
    (Prooflock.MainLock.new 4096 (0 : Nat)).ownership
      = (Prooflock.MainLock.new 4096 (1 : Nat)).ownership ∧
    (Proofcell.MainCell.new 4096 (0 : Nat)).ownership
      = (Proofcell.MainCell.new 4096 (1 : Nat)).ownership :=
  ⟨rfl, rfl⟩

/-- C3: in both capability-token designs, `SubCell::borrow` accepts a read
capability or a write capability; a matching key yields the payload, a
mismatched key is an unconditional fatal assertion (the result type has no
recoverable-error constructor), and for two locks A and B with distinct
keys, a capability minted under A presented to a sub-cell created under B
is rejected fatally, in both directions and in both modules. -/
theorem C3_owner_key_discipline (kA kB v : Nat) (h : kA ≠ kB) :
    (∀ (c : Prooflock.SubCell Nat) (p : Prooflock.Proof),
        (c.owner_key = p.key → c.borrow p = .ok c.cell) ∧
        (c.owner_key ≠ p.key → (c.borrow p).isFatal = true)) ∧
    (∀ (c : Prooflock.SubCell Nat) (pm : Prooflock.ProofMut),
        (c.owner_key = pm.key → c.borrowWithMut pm = .ok c.cell) ∧
        (c.owner_key ≠ pm.key → (c.borrowWithMut pm).isFatal = true)) ∧
    ((Prooflock.SubCell.new ⟨kB⟩ v).borrow ⟨kA⟩).isFatal = true ∧
    ((Prooflock.SubCell.new ⟨kA⟩ v).borrow ⟨kB⟩).isFatal = true ∧
    ((Prooflock.SubCell.new ⟨kB⟩ v).borrowWithMut ⟨kA⟩).isFatal = true ∧
    ((Prooflock.SubCell.new ⟨kB⟩ v).borrow_mut ⟨kA⟩).isFatal = true ∧
    (∀ (c : Proofcell.SubCell Nat) (p : Proofcell.Proof),
        (c.owner_key = p.key → c.borrow p = .ok c.cell) ∧
        (c.owner_key ≠ p.key → (c.borrow p).isFatal = true)) ∧
    (∀ (c : Proofcell.SubCell Nat) (pm : Proofcell.ProofMut),
        (c.owner_key = pm.key → c.borrowWithMut pm = .ok c.cell) ∧
        (c.owner_key ≠ pm.key → (c.borrowWithMut pm).isFatal = true)) ∧
    ((Proofcell.SubCell.new ⟨kB⟩ v).borrow ⟨kA⟩).isFatal = true ∧
    ((Proofcell.SubCell.new ⟨kA⟩ v).borrow ⟨kB⟩).isFatal = true ∧
    ((Proofcell.SubCell.new ⟨kB⟩ v).borrowWithMut ⟨kA⟩).isFatal = true ∧
    ((Proofcell.SubCell.new ⟨kB⟩ v).borrow_mut ⟨kA⟩).isFatal = true := by
  have h' : kB ≠ kA := Ne.symm h
  refine ⟨?_, ?_, ?_, ?_, ?_, ?_, ?_, ?_, ?_, ?_, ?_, ?_⟩
  · intro c p
    exact ⟨fun he => by simp [Prooflock.SubCell.borrow, he],
      fun hne => by simp [Prooflock.SubCell.borrow, hne, Sublock.AssertResult.isFatal]⟩
  · intro c pm
    exact ⟨fun he => by simp [Prooflock.SubCell.borrowWithMut, he],
      fun hne => by simp [Prooflock.SubCell.borrowWithMut, hne, Sublock.AssertResult.isFatal]⟩
  · simp [Prooflock.SubCell.new, Prooflock.SubCell.borrow, h', Sublock.AssertResult.isFatal]
  · simp [Prooflock.SubCell.new, Prooflock.SubCell.borrow, h, Sublock.AssertResult.isFatal]
  · simp [Prooflock.SubCell.new, Prooflock.SubCell.borrowWithMut, h',
      Sublock.AssertResult.isFatal]
  · simp [Prooflock.SubCell.new, Prooflock.SubCell.borrow_mut, h',
      Sublock.AssertResult.isFatal]
  · intro c p
    exact ⟨fun he => by simp [Proofcell.SubCell.borrow, he],
      fun hne => by simp [Proofcell.SubCell.borrow, hne, Sublock.AssertResult.isFatal]⟩
  · intro c pm
    exact ⟨fun he => by simp [Proofcell.SubCell.borrowWithMut, he],
      fun hne => by simp [Proofcell.SubCell.borrowWithMut, hne, Sublock.AssertResult.isFatal]⟩
  · simp [Proofcell.SubCell.new, Proofcell.SubCell.borrow, h', Sublock.AssertResult.isFatal]
  · simp [Proofcell.SubCell.new, Proofcell.SubCell.borrow, h, Sublock.AssertResult.isFatal]
  · simp [Proofcell.SubCell.new, Proofcell.SubCell.borrowWithMut, h',
      Sublock.AssertResult.isFatal]
  · simp [Proofcell.SubCell.new, Proofcell.SubCell.borrow_mut, h',
      Sublock.AssertResult.isFatal]

/-- C3 witness: cross-lock rejection at keys 1 and 2. -/
theorem C3_owner_key_discipline_witness :
    ((Prooflock.SubCell.new ⟨2⟩ 5).borrow ⟨1⟩).isFatal = true ∧
    ((Proofcell.SubCell.new ⟨2⟩ 5).borrow ⟨1⟩).isFatal = true := by
  obtain ⟨p1, p2, p3, p4, p5, p6, q1, q2, q3, q4, q5, q6⟩ :=
    C3_owner_key_discipline 1 2 5 (by decide)
  exact ⟨p3, q3⟩

/-- C4: in the liveness-flag design, `SubCell::borrow` is a fatal
assertion exactly when `is_alive` is false (otherwise it returns the
payload), `SubCell::borrow_mut` is a fatal assertion exactly when
`is_alive` is false or `is_mut` is false, and in every reachable state in
which the MainLock has been dropped, both operations assert-fail. -/
theorem C4_flag_failure_conditions :
    (∀ (lv : Atomlock.Liveness) (c : Atomlock.SubCell Nat),
        ((Atomlock.SubCell.borrow lv c).isFatal = true ↔ lv.is_alive = false) ∧
        (lv.is_alive = true → Atomlock.SubCell.borrow lv c = .ok c.cell) ∧
        ((Atomlock.SubCell.borrow_mut lv c).isFatal = true ↔
          (lv.is_alive = false ∨ lv.is_mut = false))) ∧
    (∀ s : Atomlock.MainLockState, Atomlock.Reachable s → s.dropped = true →
        ∀ (c : Atomlock.SubCell Nat),
          (Atomlock.SubCell.borrow s.liveness c).isFatal = true ∧
          (Atomlock.SubCell.borrow_mut s.liveness c).isFatal = true) := by
  have base : ∀ (lv : Atomlock.Liveness) (c : Atomlock.SubCell Nat),
      ((Atomlock.SubCell.borrow lv c).isFatal = true ↔ lv.is_alive = false) ∧
      (lv.is_alive = true → Atomlock.SubCell.borrow lv c = .ok c.cell) ∧
      ((Atomlock.SubCell.borrow_mut lv c).isFatal = true ↔
        (lv.is_alive = false ∨ lv.is_mut = false)) := by
    rintro ⟨a, m⟩ c
    cases a <;> cases m <;>
      simp [Atomlock.SubCell.borrow, Atomlock.SubCell.borrow_mut,
        Sublock.AssertResult.isFatal]
  refine ⟨base, ?_⟩
  intro s hs hd c
  obtain ⟨h1, _h2, _h3⟩ := Atomlock.reachable_inv hs
  have ha : s.liveness.is_alive = false := by rw [h1, hd]; rfl
  exact ⟨(base s.liveness c).1.mpr ha, (base s.liveness c).2.2.mpr (Or.inl ha)⟩

/-- State of the atomlock machine immediately after `MainLock::drop`. -/
def afterDrop : Atomlock.MainLockState :=
  { liveness := { is_alive := false, is_mut := false },
    readers := 0, writer := false, poisoned := false, dropped := true }

theorem afterDrop_reachable : Atomlock.Reachable afterDrop :=
  Atomlock.Reachable.step Atomlock.Reachable.init
    (Atomlock.Step.mainDrop Atomlock.MainLockState.init rfl rfl rfl)

/-- C4 witness: failure conditions evaluated at concrete liveness records
and at the reachable post-drop state. -/
theorem C4_flag_failure_conditions_witness :
    (Atomlock.SubCell.borrow ⟨false, false⟩ (⟨7⟩ : Atomlock.SubCell Nat)).isFatal = true ∧
    (Atomlock.SubCell.borrow_mut ⟨true, false⟩ (⟨7⟩ : Atomlock.SubCell Nat)).isFatal = true ∧
    Atomlock.SubCell.borrow ⟨true, false⟩ (⟨7⟩ : Atomlock.SubCell Nat) = .ok 7 ∧
    (Atomlock.SubCell.borrow afterDrop.liveness (⟨7⟩ : Atomlock.SubCell Nat)).isFatal = true ∧
    (Atomlock.SubCell.borrow_mut afterDrop.liveness (⟨7⟩ : Atomlock.SubCell Nat)).isFatal
      = true :=
  ⟨(C4_flag_failure_conditions.1 ⟨false, false⟩ ⟨7⟩).1.mpr rfl,
   (C4_flag_failure_conditions.1 ⟨true, false⟩ ⟨7⟩).2.2.mpr (Or.inr rfl),
   (C4_flag_failure_conditions.1 ⟨true, false⟩ ⟨7⟩).2.1 rfl,
   (C4_flag_failure_conditions.2 afterDrop afterDrop_reachable rfl ⟨7⟩).1,
   (C4_flag_failure_conditions.2 afterDrop afterDrop_reachable rfl ⟨7⟩).2⟩

/-- C5: lifecycle of the liveness record — constructed alive and non-mut;
write-guard construction sets `is_mut`, write-guard destruction (normal or
by unwinding) clears it; read acquisition, read release and `try_read`
never touch the record; `MainLock::drop` stores `is_alive = false` and
`is_mut = false`; and no event other than the drop ever makes `is_alive`
false. -/
theorem C5_liveness_lifecycle :
    Atomlock.MainLockState.init.liveness = { is_alive := true, is_mut := false } ∧
    (∀ s s', Atomlock.Step s .writeAcquire s' →
        s'.liveness.is_mut = true ∧ s'.liveness.is_alive = s.liveness.is_alive) ∧
    (∀ s s', Atomlock.Step s .writeRelease s' →
        s'.liveness.is_mut = false ∧ s'.liveness.is_alive = s.liveness.is_alive) ∧
    (∀ s s', Atomlock.Step s .poisonRelease s' →
        s'.liveness.is_mut = false ∧ s'.liveness.is_alive = s.liveness.is_alive) ∧
    (∀ s s', Atomlock.Step s .readAcquire s' → s'.liveness = s.liveness) ∧
    (∀ s s', Atomlock.Step s .readRelease s' → s'.liveness = s.liveness) ∧
    (∀ s r s', Atomlock.MainLockState.read s = some (r, s') → s'.liveness = s.liveness) ∧
    (∀ s, (Atomlock.MainLockState.try_read s).2.liveness = s.liveness) ∧
    (∀ s s', Atomlock.Step s .mainDrop s' →
        s'.liveness = { is_alive := false, is_mut := false }) ∧
    (∀ s l s', Atomlock.Step s l s' → s.liveness.is_alive = true →
        s'.liveness.is_alive = false → l = .mainDrop) := by
  refine ⟨rfl, ?_, ?_, ?_, ?_, ?_, ?_, ?_, ?_, ?_⟩
  · intro s s' h
    cases h
    exact ⟨rfl, rfl⟩
  · intro s s' h
    cases h
    exact ⟨rfl, rfl⟩
  · intro s s' h
    cases h
    exact ⟨rfl, rfl⟩
  · intro s s' h
    cases h
    rfl
  · intro s s' h
    cases h
    rfl
  · intro s r s' h
    cases hw : s.writer <;> cases hp : s.poisoned <;>
      simp [Atomlock.MainLockState.read, hw, hp] at h <;>
      simp [← h.2]
  · intro s
    cases hw : s.writer <;> cases hp : s.poisoned <;>
      simp [Atomlock.MainLockState.try_read, hw, hp]
  · intro s s' h
    cases h
    rfl
  · intro s l s' h ha hf
    cases h <;> simp_all

/-- C5 witness: lifecycle facts evaluated on concrete steps of the machine:
the write acquisition from the initial state and the drop from the initial
state. -/
theorem C5_liveness_lifecycle_witness :
    Atomlock.MainLockState.init.liveness = { is_alive := true, is_mut := false } ∧
    (⟨⟨true, true⟩, 0, true, false, false⟩ : Atomlock.MainLockState).liveness.is_mut
      = true ∧
    (afterDrop : Atomlock.MainLockState).liveness
      = { is_alive := false, is_mut := false } := by
  refine ⟨C5_liveness_lifecycle.1, ?_, ?_⟩
  · exact (C5_liveness_lifecycle.2.1 Atomlock.MainLockState.init _
      (Atomlock.Step.writeAcquire Atomlock.MainLockState.init rfl rfl rfl)).1
  · exact C5_liveness_lifecycle.2.2.2.2.2.2.2.2.1 Atomlock.MainLockState.init afterDrop
      (Atomlock.Step.mainDrop Atomlock.MainLockState.init rfl rfl rfl)

/-- C6 (counterexample): the claim that in the liveness-flag design
sub-cell creation "is only possible while the creator holds write access"
is false: in the reachable initial state no guard is outstanding and
`is_mut` is false, yet `SubCell::new` (which takes only a shared reference
to the liveness record, obtainable from `MainLock::liveness()` without any
guard, and performs no check) succeeds and yields a sub-cell that can
immediately be read. -/
theorem C6_flag_creation_counterexample :
    Atomlock.Reachable Atomlock.MainLockState.init ∧
    Atomlock.MainLockState.init.writer = false ∧
    Atomlock.MainLockState.init.liveness.is_mut = false ∧
    Atomlock.SubCell.new Atomlock.MainLockState.init.liveness (42 : Nat)
      = { cell := 42 } ∧
    Atomlock.SubCell.borrow Atomlock.MainLockState.init.liveness
      (Atomlock.SubCell.new Atomlock.MainLockState.init.liveness 42) = .ok 42 :=
  ⟨Atomlock.Reachable.init, rfl, rfl, rfl, rfl⟩

/-- C6 (amended): in both capability-token designs `SubCell::new` demands a
write capability (`ProofMut`) and binds the sub-cell to that capability's
key; in the liveness-flag design `SubCell::new` requires only a shared
reference to the liveness record and performs no write-access check, so
creation there is not restricted to write acquisitions. -/
theorem C6_subcell_creation_amended (v : Nat) (pm : Prooflock.ProofMut)
    (qm : Proofcell.ProofMut) (lv : Atomlock.Liveness) :
    (Prooflock.SubCell.new pm v).owner_key = pm.key ∧
    (Proofcell.SubCell.new qm v).owner_key = qm.key ∧
    Atomlock.SubCell.new lv v = { cell := v } :=
  ⟨rfl, rfl, rfl⟩

/-- C7: after a writer panic poisoned the lock, each of `read`, `write`,
`try_read` and `try_write` surfaces a poisoned outcome (a result value,
not a fatal assertion) that carries exactly the `(capability, guard)` pair
a successful acquisition would carry, and performs exactly the state
update a successful acquisition performs: the statements pair each
poisoned call with the same call on the unpoisoned twin of the lock.  In
the flag design, a poisoned write still runs `WriteGuard::new` and so
still sets `is_mut = true`, and a poisoned read leaves the liveness record
untouched. -/
theorem C7_poisoned_outcomes (l : Prooflock.MainLock Nat) (s : Atomlock.MainLockState)
    (hp : l.lock.poisoned = true) (hw : l.lock.writer = false) (hr : l.lock.readers = 0)
    (sp : s.poisoned = true) (sw : s.writer = false) (sr : s.readers = 0) :
    (l.read = some (.poisoned ({ key := l.ownership }, l.value),
        { l with lock := { l.lock with readers := l.lock.readers + 1 } }) ∧
      Prooflock.MainLock.read { l with lock := { l.lock with poisoned := false } }
        = some (.ok ({ key := l.ownership }, l.value),
            { l with lock :=
                { readers := l.lock.readers + 1, writer := l.lock.writer,
                  poisoned := false } })) ∧
    l.try_read = (.poisoned ({ key := l.ownership }, l.value),
        { l with lock := { l.lock with readers := l.lock.readers + 1 } }) ∧
    (l.write = some (.poisoned ({ key := l.ownership }, l.value),
        { l with lock := { l.lock with writer := true } }) ∧
      Prooflock.MainLock.write { l with lock := { l.lock with poisoned := false } }
        = some (.ok ({ key := l.ownership }, l.value),
            { l with lock :=
                { readers := l.lock.readers, writer := true, poisoned := false } })) ∧
    l.try_write = (.poisoned ({ key := l.ownership }, l.value),
        { l with lock := { l.lock with writer := true } }) ∧
    Atomlock.MainLockState.read s = some (.poisoned (), { s with readers := s.readers + 1 }) ∧
    (Atomlock.MainLockState.write s = some (.poisoned (),
        { s with writer := true, liveness := { s.liveness with is_mut := true } }) ∧
      Atomlock.MainLockState.write { s with poisoned := false } = some (.ok (),
        { s with writer := true, poisoned := false,
                 liveness := { s.liveness with is_mut := true } })) ∧
    Atomlock.MainLockState.try_write s = (.poisoned (),
        { s with writer := true, liveness := { s.liveness with is_mut := true } }) := by
  refine ⟨⟨?_, ?_⟩, ?_, ⟨?_, ?_⟩, ?_, ?_, ⟨?_, ?_⟩, ?_⟩ <;>
    simp [Prooflock.MainLock.read, Prooflock.MainLock.try_read,
      Prooflock.MainLock.write, Prooflock.MainLock.try_write,
      Atomlock.MainLockState.read, Atomlock.MainLockState.write,
      Atomlock.MainLockState.try_write, hp, hw, hr, sp, sw, sr]

/-- C7 witness: poisoned outcomes at a concrete poisoned prooflock and a
concrete poisoned atomlock state. -/
theorem C7_poisoned_outcomes_witness :
    Prooflock.MainLock.read ⟨⟨0, false, true⟩, 5, 17⟩
      = some (.poisoned (⟨17⟩, 5), ⟨⟨1, false, true⟩, 5, 17⟩) ∧
    Atomlock.MainLockState.write ⟨⟨true, false⟩, 0, false, true, false⟩
      = some (.poisoned (), ⟨⟨true, true⟩, 0, true, true, false⟩) := by
  obtain ⟨⟨r1, r2⟩, r3, ⟨w1, w2⟩, w3, ar, ⟨a1, a2⟩, a3⟩ :=
    C7_poisoned_outcomes ⟨⟨0, false, true⟩, 5, 17⟩ ⟨⟨true, false⟩, 0, false, true, false⟩
      rfl rfl rfl rfl rfl rfl
  exact ⟨r1, a1⟩

/-- The round-trip scenario of the spec and of the doctest of
src/sync/prooflock.rs and `test_read_write` in src/lib.rs, over a keyed
container `List (Nat, SubCell Nat)` standing for the
`HashMap<usize, SubCell<usize>>` of the test: construct the lock over an
empty container; acquire a write guard and insert a sub-cell with value
`v1` at key 0 through the guard; release; acquire a read guard and read
the sub-cell through `borrow`; release; acquire a write guard and set the
sub-cell to `v2` through `borrow_mut`; release; acquire a read guard and
read again.  Returns the two values observed by the reads, or `none` if
any acquisition or borrow did not succeed cleanly. -/
def roundTripScenario (addr v1 v2 : Nat) : Option (Nat × Nat) :=
  let l0 := Prooflock.MainLock.new addr ([] : List (Nat × Prooflock.SubCell Nat))
  match l0.write with
  | some (.ok (pm, _), l1) =>
    let l2 := l1.setValue [(0, Prooflock.SubCell.new pm v1)]
    let l3 := l2.writeRelease
    match l3.read with
    | some (.ok (p, container), l4) =>
      match container.lookup 0 with
      | some cell =>
        match cell.borrow p with
        | .ok r1 =>
          let l5 := l4.readRelease
          match l5.write with
          | some (.ok (pm2, container2), l6) =>
            match container2.lookup 0 with
            | some cell2 =>
              match cell2.borrow_mut pm2 with
              | .ok (_, setc) =>
                let l7 := l6.setValue [(0, setc v2)]
                let l8 := l7.writeRelease
                match l8.read with
                | some (.ok (p3, container3), _) =>
                  match container3.lookup 0 with
                  | some cell3 =>
                    match cell3.borrow p3 with
                    | .ok r2 => some (r1, r2)
                    | .fatal _ => none
                  | none => none
                | _ => none
              | .fatal _ => none
            | none => none
          | _ => none
        | .fatal _ => none
      | none => none
    | _ => none
  | _ => none

/-- C8: sub-cell values round-trip across guard boundaries: for every pair
of values, the insert-release-read-release-mutate-release-read scenario
observes exactly the value last written before each read — the sub-cell
inserted under the first write guard is visible to both subsequent read
acquisitions with its last-written value. -/
theorem C8_subcell_roundtrip (addr v1 v2 : Nat) :
    roundTripScenario addr v1 v2 = some (v1, v2) := by
  simp [roundTripScenario, Prooflock.MainLock.new, Prooflock.MainLock.write,
    Prooflock.MainLock.read, Prooflock.MainLock.setValue, Prooflock.MainLock.writeRelease,
    Prooflock.MainLock.readRelease, Prooflock.SubCell.new, Prooflock.SubCell.borrow,
    Prooflock.SubCell.borrow_mut, List.lookup]

/-- C8 witness: the spec's concrete scenario, with 42 then 99. -/
theorem C8_subcell_roundtrip_witness : roundTripScenario 4096 42 99 = some (42, 99) :=
  C8_subcell_roundtrip 4096 42 99

/-- C9: the non-blocking acquisitions fail with an outcome distinguishable
from success (a distinct constructor) and leave the entire state — lock
occupancy, liveness record and protected value — unchanged: `try_read` /
`try_write` return `WouldBlock` when a conflicting guard is outstanding,
and the single-threaded `MainCell::try_borrow` / `try_borrow_mut` return
the `BorrowError` / `BorrowMutError` of the underlying `RefCell` when the
cell is incompatibly borrowed. -/
theorem C9_try_failures (l : Prooflock.MainLock Nat) (s : Atomlock.MainLockState)
    (c : Proofcell.MainCell Nat) :
    (l.lock.writer = true → l.try_read = (.wouldBlock, l)) ∧
    (l.lock.writer = true ∨ l.lock.readers ≠ 0 → l.try_write = (.wouldBlock, l)) ∧
    (s.writer = true → Atomlock.MainLockState.try_read s = (.wouldBlock, s)) ∧
    (s.writer = true ∨ s.readers ≠ 0 →
        Atomlock.MainLockState.try_write s = (.wouldBlock, s)) ∧
    (c.state = .writing → c.try_borrow = (.error .alreadyMutablyBorrowed, c)) ∧
    (∀ n, c.state = .reading n → c.try_borrow_mut = (.error .alreadyBorrowed, c)) ∧
    (c.state = .writing → c.try_borrow_mut = (.error .alreadyBorrowed, c)) := by
  refine ⟨?_, ?_, ?_, ?_, ?_, ?_, ?_⟩
  · intro hw
    simp [Prooflock.MainLock.try_read, hw]
  · rintro (hw | hr)
    · simp [Prooflock.MainLock.try_write, hw]
    · simp [Prooflock.MainLock.try_write, hr]
  · intro hw
    simp [Atomlock.MainLockState.try_read, hw]
  · rintro (hw | hr)
    · simp [Atomlock.MainLockState.try_write, hw]
    · simp [Atomlock.MainLockState.try_write, hr]
  · intro hc
    simp [Proofcell.MainCell.try_borrow, hc]
  · intro n hc
    simp [Proofcell.MainCell.try_borrow_mut, hc]
  · intro hc
    simp [Proofcell.MainCell.try_borrow_mut, hc]

/-- C9 witness: failures at a writer-held prooflock, a writer-held
atomlock, and a mutably borrowed MainCell. -/
theorem C9_try_failures_witness :
    Prooflock.MainLock.try_read ⟨⟨0, true, false⟩, 5, 9⟩
      = (.wouldBlock, ⟨⟨0, true, false⟩, 5, 9⟩) ∧
    Atomlock.MainLockState.try_write ⟨⟨true, true⟩, 0, true, false, false⟩
      = (.wouldBlock, ⟨⟨true, true⟩, 0, true, false, false⟩) ∧
    Proofcell.MainCell.try_borrow ⟨.writing, 5, 9⟩
      = (.error .alreadyMutablyBorrowed, ⟨.writing, 5, 9⟩) := by
  obtain ⟨t1, t2, t3, t4, t5, t6, t7⟩ :=
    C9_try_failures ⟨⟨0, true, false⟩, 5, 9⟩ ⟨⟨true, true⟩, 0, true, false, false⟩
      ⟨.writing, 5, 9⟩
  exact ⟨t1 rfl, t4 (Or.inl rfl), t5 rfl⟩

/-- C10: the capability-token sub-cells do no per-cell borrow tracking —
the `SubCell` struct of src/sync/prooflock.rs and src/cell/proofcell.rs
holds only the payload and the owner key, so the owner-key assertion is
the only failure condition: with a matching capability, `borrow`,
`borrow` through a `ProofMut`, and `borrow_mut` all succeed
simultaneously (so a reference can be taken while another, including a
mutable one, is outstanding), and each fails exactly on a key
mismatch. -/
theorem C10_no_percell_borrow_tracking (c : Prooflock.SubCell Nat)
    (p : Prooflock.Proof) (pm : Prooflock.ProofMut)
    (d : Proofcell.SubCell Nat) (q : Proofcell.Proof) (qm : Proofcell.ProofMut) :
    (c.borrow p = .ok c.cell ↔ c.owner_key = p.key) ∧
    ((c.borrow p).isFatal = true ↔ c.owner_key ≠ p.key) ∧
    ((c.borrow_mut pm).isFatal = true ↔ c.owner_key ≠ pm.key) ∧
    (c.owner_key = pm.key →
        c.borrowWithMut pm = .ok c.cell ∧
        c.borrow_mut pm = .ok (c.cell, fun v => { c with cell := v }) ∧
        Prooflock.SubCell.borrow c { key := pm.key } = .ok c.cell) ∧
    (d.borrow q = .ok d.cell ↔ d.owner_key = q.key) ∧
    ((d.borrow q).isFatal = true ↔ d.owner_key ≠ q.key) ∧
    ((d.borrow_mut qm).isFatal = true ↔ d.owner_key ≠ qm.key) ∧
    (d.owner_key = qm.key →
        d.borrowWithMut qm = .ok d.cell ∧
        d.borrow_mut qm = .ok (d.cell, fun v => { d with cell := v }) ∧
        Proofcell.SubCell.borrow d { key := qm.key } = .ok d.cell) := by
  refine ⟨?_, ?_, ?_, ?_, ?_, ?_, ?_, ?_⟩
  · by_cases he : c.owner_key = p.key <;>
      simp [Prooflock.SubCell.borrow, he]
  · by_cases he : c.owner_key = p.key <;>
      simp [Prooflock.SubCell.borrow, he, Sublock.AssertResult.isFatal]
  · by_cases he : c.owner_key = pm.key <;>
      simp [Prooflock.SubCell.borrow_mut, he, Sublock.AssertResult.isFatal]
  · intro he
    refine ⟨?_, ?_, ?_⟩ <;>
      simp [Prooflock.SubCell.borrowWithMut, Prooflock.SubCell.borrow_mut,
        Prooflock.SubCell.borrow, he]
  · by_cases he : d.owner_key = q.key <;>
      simp [Proofcell.SubCell.borrow, he]
  · by_cases he : d.owner_key = q.key <;>
      simp [Proofcell.SubCell.borrow, he, Sublock.AssertResult.isFatal]
  · by_cases he : d.owner_key = qm.key <;>
      simp [Proofcell.SubCell.borrow_mut, he, Sublock.AssertResult.isFatal]
  · intro he
    refine ⟨?_, ?_, ?_⟩ <;>
      simp [Proofcell.SubCell.borrowWithMut, Proofcell.SubCell.borrow_mut,
        Proofcell.SubCell.borrow, he]

/-- C10 witness: simultaneous success of shared and exclusive access to
one sub-cell under a matching capability, in both modules. -/
theorem C10_no_percell_borrow_tracking_witness :
    Prooflock.SubCell.borrowWithMut ⟨8, 3⟩ ⟨3⟩ = .ok 8 ∧
    Prooflock.SubCell.borrow ⟨8, 3⟩ ⟨3⟩ = .ok 8 ∧
    Proofcell.SubCell.borrowWithMut ⟨8, 3⟩ ⟨3⟩ = .ok 8 := by
  obtain ⟨a1, a2, a3, a4, b1, b2, b3, b4⟩ :=
    C10_no_percell_borrow_tracking ⟨8, 3⟩ ⟨3⟩ ⟨3⟩ ⟨8, 3⟩ ⟨3⟩ ⟨3⟩
  exact ⟨(a4 rfl).1, (a4 rfl).2.2, (b4 rfl).1⟩
